import Mathlib

/-!
Verification of the session/command orchestration core of the
gemini-copilot-bridge server (src/gemini_copilot_mcp/server.py).

The Python module is shallowly embedded as follows.

* Python strings are Lean `String`s.  Python `str.lower` and `str.strip`
  are re-implemented by structural recursion over `String.data` (`lower`,
  `strip`) so that all definitions evaluate inside the kernel; Python
  `needle in hay` (substring test) is `strContains`.
* Truthiness of an `Optional[str]` (`None` and `""` are falsy) is
  `optStrTruthy`.
* The module-level singleton `SessionState` is the structure
  `SessionState`; its class-attribute defaults are `initialState`.
* All interaction with the outside world (filesystem lookups,
  `shutil.which`, `Path.cwd()`, reading `AGENTS.md`, the two candidate
  config files) is abstracted into an explicit environment record `Env`
  passed to each function; the subprocess launch
  (`asyncio.create_subprocess_exec` + `communicate`) is a `runner`
  function returning a `RunOutcome`: either the completed process
  (return code, stdout, stderr) or a raised exception message.
* A Python function that can raise an exception that its own body does
  not catch is modelled with `Except String`: `Except.error msg` is an
  escaping exception carrying the exception text.
* `await ctx.warning(...)` calls are modelled, where a claim needs them,
  as an explicit list of warning strings in the return value.
-/

/-- Python `str.lower()` (ASCII case folding), as a structural map over
the character list. -/
def lower (s : String) : String := ⟨s.data.map Char.toLower⟩

/-- Characters-list version of Python `str.strip()`. -/
def trimChars (l : List Char) : List Char :=
  ((l.dropWhile Char.isWhitespace).reverse.dropWhile Char.isWhitespace).reverse

/-- Python `str.strip()`: drop whitespace from both ends. -/
def strip (s : String) : String := ⟨trimChars s.data⟩

/-- Python `needle in hay` on strings: substring containment. -/
def strContains (hay needle : String) : Bool := decide (needle.data <:+: hay.data)

/-- Python truthiness of an `Optional[str]`: `None` and the empty string
are falsy. -/
def optStrTruthy : Option String → Bool
  | none => false
  | some s => !s.isEmpty

/-- `DEFAULT_MODEL = "gemini-2.5-pro"` (server.py line 16). -/
def DEFAULT_MODEL : String := "gemini-2.5-pro"

/-- `FALLBACK_FLASH_MODEL = "gemini-2.5-flash"` (server.py line 17). -/
def FALLBACK_FLASH_MODEL : String := "gemini-2.5-flash"

/-- The fixed allow-list `SessionState.available_models`
(server.py lines 29-34). -/
def availableModelsList : List String :=
  ["gemini-3-pro-preview", "gemini-3-flash-preview",
   "gemini-2.5-pro", "gemini-2.5-flash"]

/-- The singleton session state (server.py lines 21-36).  `cwd` is the
project root as a path string. -/
structure SessionState where
  initialized : Bool
  cwd : Option String
  agents_rules : Option String
  available_gemini_mcps : List String
  available_models : List String
deriving DecidableEq

/-- The state of `STATE` at process start: the class-attribute defaults. -/
def initialState : SessionState :=
  { initialized := false
    cwd := none
    agents_rules := none
    available_gemini_mcps := []
    available_models := availableModelsList }

/-- One candidate configuration file (`~/.gemini/config.json` or
`~/.gemini/settings.json`): absent, present but unparsable (any
exception while reading or parsing), or parsed with an optional
`mcpServers` key listing server names. -/
inductive ConfigFile where
  | missing : ConfigFile
  | malformed : ConfigFile
  | valid : Option (List String) → ConfigFile
deriving DecidableEq

/-- `_load_config_safely` (server.py lines 57-73).  The Python loop over
the candidate paths skips a missing file, swallows any exception from a
malformed file and moves on, and on the first successfully parsed file
collects the `mcpServers` keys (none present gives the empty list) and
breaks. -/
def _load_config_safely : List ConfigFile → List String
  | [] => []
  | ConfigFile.missing :: rest => _load_config_safely rest
  | ConfigFile.malformed :: rest => _load_config_safely rest
  | ConfigFile.valid srv :: _ => srv.getD []

/-- The ambient host environment, abstracting every effectful lookup the
server performs.  `resolve` is `Path(...).resolve()`; `pathExists` is
path existence; `procCwd` is `Path.cwd()`; `agentsFile root` describes
`<root>/AGENTS.md`: `none` when the file does not exist, `some none`
when reading it raises, `some (some txt)` when it reads as `txt`;
`configFiles` are the two candidate config files in order;
`whichGemini` is `shutil.which("gemini")`; `home` is the expansion of
`~`; `exeExists` is `os.path.exists` for the fallback binaries. -/
structure Env where
  resolve : String → String
  pathExists : String → Bool
  procCwd : String
  agentsFile : String → Option (Option String)
  configFiles : List ConfigFile
  whichGemini : Option String
  home : String
  exeExists : String → Bool

/-- `_get_gemini_path` (server.py lines 42-55): `shutil.which`, then the
three hard-coded fallback locations, else raise `FileNotFoundError`
(modelled as `Except.error` with the exception text). -/
def _get_gemini_path (env : Env) : Except String String :=
  match env.whichGemini with
  | some path => Except.ok path
  | none =>
    let possible_paths : List String :=
      [env.home ++ "/.local/bin/gemini",
       "/usr/local/bin/gemini",
       "/opt/homebrew/bin/gemini"]
    match possible_paths.find? env.exeExists with
    | some p => Except.ok p
    | none => Except.error "Critical: \x27gemini\x27 executable not found in PATH."

/-- `_validate_model` (server.py lines 75-88): allow-list pass-through,
otherwise a category fallback on the lowercased name containing
`flash`. -/
def _validate_model (s : SessionState) (requested_model : String) : String :=
  if requested_model ∈ s.available_models then requested_model
  else if strContains (lower requested_model) "flash" then FALLBACK_FLASH_MODEL
  else DEFAULT_MODEL

/-- `_verify_init` (server.py lines 90-100): on an uninitialized state,
silently auto-initialize in the process working directory (config tools,
cwd, initialized flag); nothing else is touched. -/
def _verify_init (env : Env) (s : SessionState) : SessionState :=
  if s.initialized then s
  else
    { s with
      available_gemini_mcps := _load_config_safely env.configFiles
      cwd := some env.procCwd
      initialized := true }

/-- The `sys_prompt` list built by `ask_gemini` (server.py lines
178-185): the AGENTS.md rules bracketed by the marker lines when the
rules are truthy, then the caller override when truthy. -/
def sysPromptList (rules system_instruction : Option String) : List String :=
  (if optStrTruthy rules then
    ["=== PROJECT RULES (AGENTS.md) ===", rules.getD "", "=== END RULES ==="]
   else []) ++
  (if optStrTruthy system_instruction then [system_instruction.getD ""] else [])

/-- The optional `--system` value of `ask_gemini` (server.py lines
187-188): the `sys_prompt` blocks joined by blank lines, or absent when
there are no blocks. -/
def composedSystem (rules system_instruction : Option String) : Option String :=
  let l := sysPromptList rules system_instruction
  if l.isEmpty then none
  else some (String.intercalate "\n\n" l)

/-- The argument vector `ask_gemini` builds (server.py lines 172-188):
executable, prompt, `--model` with the validated model, `--yolo`, and
the `--system` flag exactly when a system block exists. -/
def buildAskCmd (s : SessionState) (executable prompt requested_model : String)
    (system_instruction : Option String) : List String :=
  let safe_model := _validate_model s requested_model
  let cmd := [executable, prompt, "--model", safe_model, "--yolo"]
  match composedSystem s.agents_rules system_instruction with
  | none => cmd
  | some t => cmd ++ ["--system", t]

/-- The argument vector `smart_context_summary` builds (server.py lines
223-231): a synthesized focus prompt, the model hard-wired to
`gemini-2.5-flash`, the caller target files as positional arguments, and
the raw AGENTS.md rules as `--system` when truthy. -/
def buildSummaryCmd (s : SessionState) (executable : String)
    (target_files : List String) (focus : String) : List String :=
  let prompt := "Read files. Extract ONLY info about: \x27" ++ focus ++ "\x27. Be concise."
  let cmd := [executable, prompt, "--model", "gemini-2.5-flash", "--yolo"] ++ target_files
  if optStrTruthy s.agents_rules then cmd ++ ["--system", s.agents_rules.getD ""]
  else cmd

/-- Outcome of launching the child process and waiting for it:
`completed` carries return code, decoded stdout and decoded stderr;
`raised` is any exception thrown while spawning or communicating. -/
inductive RunOutcome where
  | completed : Int → String → String → RunOutcome
  | raised : String → RunOutcome

/-- Abstract subprocess launcher: argument vector and working directory
(`str(STATE.cwd)`) to outcome. -/
def Runner : Type := List String → Option String → RunOutcome

/-- The body of `ask_gemini` after `_verify_init` (server.py lines
171-210), acting on the already-verified state `s1`.  `_get_gemini_path`
is called OUTSIDE the `try` block, so its `FileNotFoundError` escapes
the handler (`Except.error`); exceptions inside the `try` are converted
to the `Execution Error:` text; a non-zero exit returns the stderr text
behind the error marker, otherwise stripped stdout. -/
def askResult (env : Env) (runner : Runner) (s1 : SessionState)
    (prompt requested_model : String) (system_instruction : Option String) :
    Except String String :=
  match _get_gemini_path env with
  | Except.error msg => Except.error msg
  | Except.ok executable =>
    let cmd := buildAskCmd s1 executable prompt requested_model system_instruction
    match runner cmd s1.cwd with
    | RunOutcome.raised e => Except.ok ("Execution Error: " ++ e)
    | RunOutcome.completed rc out err =>
      Except.ok (if rc ≠ 0 then "❌ Gemini Error: " ++ strip err else strip out)

/-- The `ask_gemini` tool handler (server.py lines 157-210): verify or
auto-initialize the session, then run the built command.  The first
component is the session state after the call; the second is `Except.ok`
with the returned text, or `Except.error` when an exception escapes the
handler body. -/
def ask_gemini (env : Env) (runner : Runner) (s : SessionState)
    (prompt requested_model : String) (system_instruction : Option String) :
    SessionState × Except String String :=
  let s1 := _verify_init env s
  (s1, askResult env runner s1 prompt requested_model system_instruction)

/-- The body of `smart_context_summary` after `_verify_init` (server.py
lines 223-244).  `_get_gemini_path` is again outside the `try`.  The
completed process is consumed as `stdout, _ = await
process.communicate()` with no return-code check: stderr and the exit
status are ignored and the stripped stdout is returned behind the
summary label. -/
def summaryResult (env : Env) (runner : Runner) (s1 : SessionState)
    (target_files : List String) (focus : String) : Except String String :=
  match _get_gemini_path env with
  | Except.error msg => Except.error msg
  | Except.ok executable =>
    let cmd := buildSummaryCmd s1 executable target_files focus
    match runner cmd s1.cwd with
    | RunOutcome.raised e => Except.ok ("Error: " ++ e)
    | RunOutcome.completed _ out _ =>
      Except.ok ("💡 **Smart Summary**:\n" ++ strip out)

/-- The `smart_context_summary` tool handler (server.py lines
212-244). -/
def smart_context_summary (env : Env) (runner : Runner) (s : SessionState)
    (target_files : List String) (focus : String) :
    SessionState × Except String String :=
  let s1 := _verify_init env s
  (s1, summaryResult env runner s1 target_files focus)

/-- The status summary `initialize_gemini_bridge` returns (server.py
lines 139-144). -/
def statusSummary (root : String) (rules : Option String) : String :=
  "✅ **Gemini Bridge Active**\n📂 Root: `" ++ root ++ "`\n🛡️ AGENTS.md: " ++
    (if optStrTruthy rules then "Loaded" else "None") ++
    "\n🤖 Default Model: `" ++ DEFAULT_MODEL ++ "`"

/-- The `initialize_gemini_bridge` tool handler (server.py lines
106-144): resolve the argument, fall back to the process working
directory (with a warning) when it does not exist, load the config
tools, read `AGENTS.md` (read failures and a missing file both leave the
rules unset), set the root and the initialized flag, and return the
status summary.  Result: (new state, warnings emitted, returned text). -/
def initialize_gemini_bridge (env : Env) (s : SessionState) (cwdArg : String) :
    SessionState × List String × String :=
  let root0 := env.resolve cwdArg
  let warnings :=
    if env.pathExists root0 then []
    else ["Path \x27" ++ root0 ++ "\x27 not found. Using current server directory."]
  let root := if env.pathExists root0 then root0 else env.procCwd
  let rules : Option String :=
    match env.agentsFile root with
    | none => none
    | some none => none
    | some (some txt) => some txt
  let s2 :=
    { s with
      available_gemini_mcps := _load_config_safely env.configFiles
      agents_rules := rules
      cwd := some root
      initialized := true }
  (s2, warnings, statusSummary root rules)

/-- The JSON object `list_capabilities` serializes (server.py lines
150-155), modelled field-by-field. -/
structure CapabilitiesReport where
  models : List String
  default_model : String
  tools : List String
  policy_active : Bool
deriving DecidableEq

/-- The `list_capabilities` tool handler (server.py lines 146-155). -/
def list_capabilities (env : Env) (s : SessionState) :
    SessionState × CapabilitiesReport :=
  let s1 := _verify_init env s
  (s1,
   { models := s1.available_models
     default_model := DEFAULT_MODEL
     tools := s1.available_gemini_mcps
     policy_active := optStrTruthy s1.agents_rules })

/-- One externally callable operation of the tool surface. -/
inductive Op where
  | initOp : String → Op
  | listOp : Op
  | askOp : String → String → Option String → Op
  | summaryOp : List String → String → Op

/-- The session state after one tool call. -/
def stepState (env : Env) (runner : Runner) (s : SessionState) : Op → SessionState
  | Op.initOp cwdArg => (initialize_gemini_bridge env s cwdArg).1
  | Op.listOp => (list_capabilities env s).1
  | Op.askOp prompt m si => (ask_gemini env runner s prompt m si).1
  | Op.summaryOp files focus => (smart_context_summary env runner s files focus).1

/-- The session-state invariant of the spec: once initialized, the
project root is set, and it is an existing path or, as a last resort,
the process working directory. -/
def RootOk (env : Env) (s : SessionState) : Prop :=
  s.initialized = true →
    ∃ p, s.cwd = some p ∧ (env.pathExists p = true ∨ p = env.procCwd)

/-- A concrete host environment used by the closed witnesses: the
executable is found on the PATH, both config files are missing, every
path exists, no AGENTS.md anywhere. -/
def envBase : Env :=
  { resolve := fun p => p
    pathExists := fun _ => true
    procCwd := "/srv"
    agentsFile := fun _ => none
    configFiles := [ConfigFile.missing, ConfigFile.missing]
    whichGemini := some "/usr/bin/gemini"
    home := "/home/u"
    exeExists := fun _ => false }

/-- `envBase` with the executable nowhere to be found: `shutil.which`
returns nothing and none of the fallback locations exist. -/
def envNoExe : Env := { envBase with whichGemini := none }

/-- An explicitly initialized session with no policy text, as after
`initialize_gemini_bridge` on a root with no AGENTS.md. -/
def readyState : SessionState :=
  { initialState with initialized := true, cwd := some "/proj" }

/-! Helper lemmas shared by several claims. -/

/-- A string contains its own suffix. -/
theorem strContains_append_right (a b : String) : strContains (a ++ b) b = true := by
  simp only [strContains, decide_eq_true_eq]
  exact ⟨a.data, [], by simp [String.data_append]⟩

/-- A string contains any middle piece it was assembled around. -/
theorem strContains_append_mid (a mid b : String) :
    strContains (a ++ mid ++ b) mid = true := by
  simp only [strContains, decide_eq_true_eq]
  exact ⟨a.data, b.data, by simp [String.data_append]⟩

/-- The validator only ever returns an allow-listed model or one of the
two fallback constants. -/
theorem validate_model_mem (s : SessionState) (m : String) :
    _validate_model s m ∈ s.available_models ∨
    _validate_model s m = FALLBACK_FLASH_MODEL ∨
    _validate_model s m = DEFAULT_MODEL := by
  unfold _validate_model
  split
  · next h => exact Or.inl h
  · split
    · exact Or.inr (Or.inl rfl)
    · exact Or.inr (Or.inr rfl)

/-- With the fixed allow-list, the validated model is never the literal
flag string. -/
theorem validate_model_ne_system (s : SessionState)
    (hm : s.available_models = availableModelsList) (m : String) :
    _validate_model s m ≠ "--system" := by
  rcases validate_model_mem s m with h | h | h
  · intro hc
    rw [hc, hm] at h
    exact absurd h (by decide)
  · intro hc
    exact absurd (hc.symm.trans h) (by decide)
  · intro hc
    exact absurd (hc.symm.trans h) (by decide)

/-- Auto-initialization preserves the root invariant. -/
theorem verify_init_rootOk (env : Env) (s : SessionState) (h : RootOk env s) :
    RootOk env (_verify_init env s) := by
  unfold _verify_init
  by_cases hi : s.initialized = true
  · simpa [hi] using h
  · simp only [Bool.not_eq_true] at hi
    simp only [hi, Bool.false_eq_true, if_false]
    intro _
    exact ⟨env.procCwd, rfl, Or.inr rfl⟩

/-! Claim theorems. -/

/-- C1: the model validator is total — an allow-listed model is returned
unchanged; otherwise a request whose lowercase form contains `flash`
gets the fast fallback model, and every other request gets the default
model. -/
theorem validate_model_total_spec (s : SessionState) (requested : String) :
    (requested ∈ s.available_models → _validate_model s requested = requested) ∧
    (requested ∉ s.available_models →
      "flash".data <:+: (lower requested).data →
      _validate_model s requested = FALLBACK_FLASH_MODEL) ∧
    (requested ∉ s.available_models →
      ¬ "flash".data <:+: (lower requested).data →
      _validate_model s requested = DEFAULT_MODEL) := by
  refine ⟨fun h => ?_, fun h hf => ?_, fun h hf => ?_⟩
  · simp [_validate_model, h]
  · simp [_validate_model, strContains, h, hf]
  · simp [_validate_model, strContains, h, hf]

/-- C1 witness: one allow-listed request, one unknown flash request, one
unknown non-flash request. -/
theorem validate_model_total_spec_witness :
    _validate_model initialState "gemini-2.5-pro" = "gemini-2.5-pro" ∧
    _validate_model initialState "My-Flash-2" = FALLBACK_FLASH_MODEL ∧
    _validate_model initialState "claude-zzz" = DEFAULT_MODEL :=
  ⟨(validate_model_total_spec initialState "gemini-2.5-pro").1 (by decide),
   (validate_model_total_spec initialState "My-Flash-2").2.1 (by decide) (by decide),
   (validate_model_total_spec initialState "claude-zzz").2.2 (by decide) (by decide)⟩

/-- C2 counterexample: with policy text `RULE A` and override `RULE B`
the composed `--system` value is NOT the claimed string — the code's
opening marker is `=== PROJECT RULES (AGENTS.md) ===` and all blocks are
joined with blank lines, not single newlines. -/
theorem composed_system_counterexample :
    composedSystem (some "RULE A") (some "RULE B") ≠
      some "=== PROJECT RULES ===\nRULE A\n=== END RULES ===\n\nRULE B" := by
  decide

/-- C2 amended: with policy text `RULE A` and override `RULE B` the
composed `--system` value is exactly
`=== PROJECT RULES (AGENTS.md) ===\n\nRULE A\n\n=== END RULES ===\n\nRULE B`,
and the ask command carries it behind the `--system` flag. -/
theorem composed_system_exact :
    composedSystem (some "RULE A") (some "RULE B") =
      some "=== PROJECT RULES (AGENTS.md) ===\n\nRULE A\n\n=== END RULES ===\n\nRULE B" ∧
    ∀ exe prompt requested_model,
      buildAskCmd { readyState with agents_rules := some "RULE A" } exe prompt
          requested_model (some "RULE B") =
        [exe, prompt, "--model",
         _validate_model { readyState with agents_rules := some "RULE A" } requested_model,
         "--yolo", "--system",
         "=== PROJECT RULES (AGENTS.md) ===\n\nRULE A\n\n=== END RULES ===\n\nRULE B"] := by
  refine ⟨by decide, fun exe prompt m => ?_⟩
  rfl

/-- C3 counterexample: `smart_context_summary` never inspects the exit
status — a run that exits 1 with stderr `boom` still yields the summary
label around the (empty) stdout, and `boom` is nowhere in the result. -/
theorem summary_swallows_stderr :
    (smart_context_summary envBase
        (fun _ _ => RunOutcome.completed 1 "" "boom")
        readyState ["a.py"] "find the bug").2 =
      Except.ok "💡 **Smart Summary**:\n" ∧
    strContains "💡 **Smart Summary**:\n" "boom" = false := by
  exact ⟨rfl, by decide⟩

/-- C3 amended: on a non-zero child exit, `ask_gemini` returns a failure
text carrying the stripped stderr (and no exception escapes), while
`smart_context_summary` ignores the exit status and stderr entirely and
returns the labeled stripped stdout. -/
theorem nonzero_exit_reporting (env : Env) (runner : Runner) (s : SessionState)
    (prompt m : String) (si : Option String)
    (files : List String) (focus : String)
    (p : String) (hexe : _get_gemini_path env = Except.ok p)
    (rc : Int) (out err : String) (hrc : rc ≠ 0)
    (hrun : ∀ cmd c, runner cmd c = RunOutcome.completed rc out err) :
    (ask_gemini env runner s prompt m si).2 =
      Except.ok ("❌ Gemini Error: " ++ strip err) ∧
    strContains ("❌ Gemini Error: " ++ strip err) (strip err) = true ∧
    (smart_context_summary env runner s files focus).2 =
      Except.ok ("💡 **Smart Summary**:\n" ++ strip out) := by
  refine ⟨?_, strContains_append_right _ _, ?_⟩
  · simp [ask_gemini, askResult, hexe, hrun, hrc]
  · simp [smart_context_summary, summaryResult, hexe, hrun]

/-- C3 amended witness at a concrete failing run. -/
theorem nonzero_exit_reporting_witness :
    (ask_gemini envBase (fun _ _ => RunOutcome.completed 1 "out" " boom ")
        readyState "q" "gemini-2.5-pro" none).2 =
      Except.ok ("❌ Gemini Error: " ++ strip " boom ") ∧
    strContains ("❌ Gemini Error: " ++ strip " boom ") (strip " boom ") = true ∧
    (smart_context_summary envBase (fun _ _ => RunOutcome.completed 1 "out" " boom ")
        readyState ["a.py"] "f").2 =
      Except.ok ("💡 **Smart Summary**:\n" ++ strip "out") :=
  nonzero_exit_reporting envBase _ readyState "q" "gemini-2.5-pro" none ["a.py"] "f"
    "/usr/bin/gemini" rfl 1 "out" " boom " (by decide) (fun _ _ => rfl)

/-- C4 counterexample: with the executable nowhere on the host, the
`FileNotFoundError` raised by `_get_gemini_path` escapes the `ask_gemini`
handler body (the lookup happens before the `try` block), so the call
does NOT come back as a textual result. -/
theorem exe_not_found_escapes :
    (ask_gemini envNoExe (fun _ _ => RunOutcome.completed 0 "" "")
        readyState "hi" "gemini-2.5-pro" none).2 =
      Except.error "Critical: \x27gemini\x27 executable not found in PATH." ∧
    ∀ t, (ask_gemini envNoExe (fun _ _ => RunOutcome.completed 0 "" "")
        readyState "hi" "gemini-2.5-pro" none).2 ≠ Except.ok t := by
  have h0 : (ask_gemini envNoExe (fun _ _ => RunOutcome.completed 0 "" "")
      readyState "hi" "gemini-2.5-pro" none).2 =
      Except.error "Critical: \x27gemini\x27 executable not found in PATH." := rfl
  exact ⟨h0, fun t h => Except.noConfusion (h0.symm.trans h)⟩

/-- C4 amended: a missing executable makes both handlers propagate the
`FileNotFoundError` out of the handler body (handled only by the
framework outside this repository), whereas an exception raised while
spawning or communicating with the child IS caught inside the handler
and returned as the call's text. -/
theorem exe_lookup_and_spawn_errors (env : Env) (runner : Runner) (s : SessionState)
    (prompt m : String) (si : Option String)
    (files : List String) (focus : String) :
    (∀ msg, _get_gemini_path env = Except.error msg →
      (ask_gemini env runner s prompt m si).2 = Except.error msg ∧
      (smart_context_summary env runner s files focus).2 = Except.error msg) ∧
    (∀ p e, _get_gemini_path env = Except.ok p →
      (∀ cmd c, runner cmd c = RunOutcome.raised e) →
      (ask_gemini env runner s prompt m si).2 =
        Except.ok ("Execution Error: " ++ e) ∧
      (smart_context_summary env runner s files focus).2 =
        Except.ok ("Error: " ++ e)) := by
  constructor
  · intro msg hm
    constructor
    · simp [ask_gemini, askResult, hm]
    · simp [smart_context_summary, summaryResult, hm]
  · intro p e hp hr
    constructor
    · simp [ask_gemini, askResult, hp, hr]
    · simp [smart_context_summary, summaryResult, hp, hr]

/-- C4 amended witness: a host without the executable, and a host where
spawning raises. -/
theorem exe_lookup_and_spawn_errors_witness :
    ((ask_gemini envNoExe (fun _ _ => RunOutcome.raised "io") readyState
        "q" "m" none).2 =
      Except.error "Critical: \x27gemini\x27 executable not found in PATH." ∧
     (smart_context_summary envNoExe (fun _ _ => RunOutcome.raised "io") readyState
        ["f"] "x").2 =
      Except.error "Critical: \x27gemini\x27 executable not found in PATH.") ∧
    ((ask_gemini envBase (fun _ _ => RunOutcome.raised "io") readyState
        "q" "m" none).2 = Except.ok ("Execution Error: " ++ "io") ∧
     (smart_context_summary envBase (fun _ _ => RunOutcome.raised "io") readyState
        ["f"] "x").2 = Except.ok ("Error: " ++ "io")) :=
  ⟨(exe_lookup_and_spawn_errors envNoExe (fun _ _ => RunOutcome.raised "io")
      readyState "q" "m" none ["f"] "x").1 _ rfl,
   (exe_lookup_and_spawn_errors envBase (fun _ _ => RunOutcome.raised "io")
      readyState "q" "m" none ["f"] "x").2 "/usr/bin/gemini" "io" rfl
      (fun _ _ => rfl)⟩

/-- C5: the summarize command always uses the hard-wired fast model,
its prompt is the focus template and contains the literal focus text,
and its positional file arguments are exactly the caller's target files
in order (followed only by the optional `--system` flag pair). -/
theorem summary_cmd_spec (s : SessionState) (exe : String)
    (files : List String) (focus : String) :
    ∃ prompt,
      strContains prompt focus = true ∧
      buildSummaryCmd s exe files focus =
        [exe, prompt, "--model", "gemini-2.5-flash", "--yolo"] ++ files ++
          (if optStrTruthy s.agents_rules then ["--system", s.agents_rules.getD ""]
           else []) := by
  refine ⟨"Read files. Extract ONLY info about: \x27" ++ focus ++ "\x27. Be concise.",
    strContains_append_mid _ _ _, ?_⟩
  by_cases h : optStrTruthy s.agents_rules <;>
    simp [buildSummaryCmd, h, List.append_assoc]

/-- C6: `initialize_gemini_bridge` never fails — it always ends with the
initialized flag set; a non-existing resolved path is replaced by the
process working directory together with a warning (and no warning is
emitted otherwise); and the returned text is the status summary for the
chosen root. -/
theorem init_never_fails (env : Env) (s : SessionState) (cwdArg : String) :
    (initialize_gemini_bridge env s cwdArg).1.initialized = true ∧
    (initialize_gemini_bridge env s cwdArg).1.cwd =
      some (if env.pathExists (env.resolve cwdArg) then env.resolve cwdArg
            else env.procCwd) ∧
    (initialize_gemini_bridge env s cwdArg).2.1 =
      (if env.pathExists (env.resolve cwdArg) then []
       else ["Path \x27" ++ env.resolve cwdArg ++
             "\x27 not found. Using current server directory."]) ∧
    (initialize_gemini_bridge env s cwdArg).2.2 =
      statusSummary
        (if env.pathExists (env.resolve cwdArg) then env.resolve cwdArg
         else env.procCwd)
        (initialize_gemini_bridge env s cwdArg).1.agents_rules := by
  by_cases h : env.pathExists (env.resolve cwdArg) <;>
    simp [initialize_gemini_bridge, h]

/-- C7: the session-state invariant — whenever `initialized` is true the
project root is set, to an existing path or, as a last resort, to the
process working directory — holds of the start state and is preserved by
every tool-surface operation. -/
theorem root_invariant (env : Env) (runner : Runner) (s : SessionState) (op : Op)
    (h : RootOk env s) :
    RootOk env (stepState env runner s op) ∧ RootOk env initialState := by
  refine ⟨?_, fun hi => absurd hi (by decide)⟩
  cases op with
  | initOp cwdArg =>
    intro _
    by_cases hp : env.pathExists (env.resolve cwdArg) = true
    · exact ⟨env.resolve cwdArg, by simp [stepState, initialize_gemini_bridge, hp],
        Or.inl hp⟩
    · simp only [Bool.not_eq_true] at hp
      exact ⟨env.procCwd, by simp [stepState, initialize_gemini_bridge, hp],
        Or.inr rfl⟩
  | listOp => exact verify_init_rootOk env s h
  | askOp prompt m si => exact verify_init_rootOk env s h
  | summaryOp files focus => exact verify_init_rootOk env s h

/-- C7 witness: the invariant after one call on the fresh state. -/
theorem root_invariant_witness :
    RootOk envBase
      (stepState envBase (fun _ _ => RunOutcome.completed 0 "" "")
        initialState Op.listOp) ∧
    RootOk envBase initialState :=
  root_invariant envBase (fun _ _ => RunOutcome.completed 0 "" "") initialState
    Op.listOp (fun hi => absurd hi (by decide))

/-- C8: with no truthy policy text and no override, the ask command is
exactly the flagless base vector, and (as long as neither the executable
path nor the prompt is itself the literal string) `--system` occurs
nowhere in it. -/
theorem no_system_flag (s : SessionState)
    (hm : s.available_models = availableModelsList)
    (hrules : optStrTruthy s.agents_rules = false)
    (exe prompt m : String)
    (hexe : exe ≠ "--system") (hprompt : prompt ≠ "--system") :
    buildAskCmd s exe prompt m none =
      [exe, prompt, "--model", _validate_model s m, "--yolo"] ∧
    "--system" ∉ buildAskCmd s exe prompt m none := by
  have hc : composedSystem s.agents_rules none = none := by
    simp only [composedSystem, sysPromptList, hrules]
    rfl
  have hbase : buildAskCmd s exe prompt m none =
      [exe, prompt, "--model", _validate_model s m, "--yolo"] := by
    unfold buildAskCmd
    rw [hc]
  refine ⟨hbase, ?_⟩
  rw [hbase]
  intro hmem
  simp only [List.mem_cons, List.not_mem_nil, or_false] at hmem
  rcases hmem with h | h | h | h | h
  · exact hexe h.symm
  · exact hprompt h.symm
  · exact absurd h (by decide)
  · exact validate_model_ne_system s hm m h.symm
  · exact absurd h (by decide)

/-- C8 witness: the concrete flagless command. -/
theorem no_system_flag_witness :
    buildAskCmd readyState "/usr/bin/gemini" "hello" "gemini-2.5-pro" none =
      ["/usr/bin/gemini", "hello", "--model",
       _validate_model readyState "gemini-2.5-pro", "--yolo"] ∧
    "--system" ∉ buildAskCmd readyState "/usr/bin/gemini" "hello"
      "gemini-2.5-pro" none :=
  no_system_flag readyState rfl rfl "/usr/bin/gemini" "hello" "gemini-2.5-pro"
    (by decide) (by decide)

/-- C9: when both candidate configuration files are missing or
malformed, the loader returns the empty list without raising, and
`list_capabilities` still succeeds and reports an empty auxiliary tool
list. -/
theorem config_degraded (f1 f2 : ConfigFile)
    (h1 : f1 = ConfigFile.missing ∨ f1 = ConfigFile.malformed)
    (h2 : f2 = ConfigFile.missing ∨ f2 = ConfigFile.malformed)
    (env : Env) (henv : env.configFiles = [f1, f2])
    (s : SessionState) (hs : s.initialized = false) :
    _load_config_safely [f1, f2] = [] ∧
    (list_capabilities env s).2.tools = [] := by
  have hload : _load_config_safely [f1, f2] = [] := by
    rcases h1 with h1 | h1 <;> rcases h2 with h2 | h2 <;> subst h1 <;> subst h2 <;> rfl
  refine ⟨hload, ?_⟩
  simp [list_capabilities, _verify_init, hs, henv, hload]

/-- C9 witness: both config files missing on the concrete host. -/
theorem config_degraded_witness :
    _load_config_safely [ConfigFile.missing, ConfigFile.missing] = [] ∧
    (list_capabilities envBase initialState).2.tools = [] :=
  config_degraded ConfigFile.missing ConfigFile.missing (Or.inl rfl) (Or.inl rfl)
    envBase rfl initialState rfl

/-- C10: auto-initialization of an uninitialized session sets the root
to the process working directory, the tools from the configuration and
the initialized flag, but never touches the policy text; so when the
policy text was unset it stays unset and a subsequent ask command (with
no override) is the bare vector with no project-rules block. -/
theorem auto_init_no_policy (env : Env) (s : SessionState)
    (hs : s.initialized = false) :
    (_verify_init env s).initialized = true ∧
    (_verify_init env s).cwd = some env.procCwd ∧
    (_verify_init env s).available_gemini_mcps =
      _load_config_safely env.configFiles ∧
    (_verify_init env s).agents_rules = s.agents_rules ∧
    (s.agents_rules = none →
      composedSystem (_verify_init env s).agents_rules none = none ∧
      ∀ exe prompt m,
        buildAskCmd (_verify_init env s) exe prompt m none =
          [exe, prompt, "--model", _validate_model (_verify_init env s) m,
           "--yolo"]) := by
  have hv : _verify_init env s =
      { s with
        available_gemini_mcps := _load_config_safely env.configFiles
        cwd := some env.procCwd
        initialized := true } := by
    simp [_verify_init, hs]
  have h4 : (_verify_init env s).agents_rules = s.agents_rules := by rw [hv]
  refine ⟨by rw [hv], by rw [hv], by rw [hv], h4, fun hnone => ?_⟩
  have ha : (_verify_init env s).agents_rules = none := h4.trans hnone
  refine ⟨?_, fun exe prompt m => ?_⟩
  · rw [ha]
    rfl
  · unfold buildAskCmd
    rw [ha]
    rfl

/-- C10 witness: auto-initialization from the fresh state. -/
theorem auto_init_no_policy_witness :
    (_verify_init envBase initialState).initialized = true ∧
    (_verify_init envBase initialState).cwd = some "/srv" ∧
    (_verify_init envBase initialState).agents_rules = none ∧
    composedSystem (_verify_init envBase initialState).agents_rules none = none ∧
    buildAskCmd (_verify_init envBase initialState) "/usr/bin/gemini" "hi"
        "gemini-2.5-pro" none =
      ["/usr/bin/gemini", "hi", "--model",
       _validate_model (_verify_init envBase initialState) "gemini-2.5-pro",
       "--yolo"] :=
  ⟨(auto_init_no_policy envBase initialState rfl).1,
   (auto_init_no_policy envBase initialState rfl).2.1,
   (auto_init_no_policy envBase initialState rfl).2.2.2.1,
   ((auto_init_no_policy envBase initialState rfl).2.2.2.2 rfl).1,
   ((auto_init_no_policy envBase initialState rfl).2.2.2.2 rfl).2
     "/usr/bin/gemini" "hi" "gemini-2.5-pro"⟩
